import Mathlib

/-!
Shallow embedding of `setup.py` from the `xstatic-angular` repository.

The script is straight-line code:
  1. `long_description = open('README.txt').read()`   (line 5)
  2. `setup(name=..., summary=..., description=long_description, ...)`
     (lines 7-17)

The embedding models the surrounding environment explicitly:
  * `FileSystem` — what `open(path).read()` returns, `none` meaning the
    file is absent or unreadable (Python raises `IOError`).
  * `ScmState` — the source-control history that `setuptools_scm`
    consults when `use_scm_version=True`.
  * `DirTree` — the local directory tree that `find_packages()` walks.
The behaviour of the external packaging tool (`setup`, `find_packages`,
`setuptools_scm`) is not code of this repository; those definitions are
modelled from the spec and are marked as such in their doc comments.
-/

/-- The filesystem as seen through `open(path).read()`: `none` models a
file that is absent or unreadable (in Python the read raises). -/
structure FileSystem where
  readFile : String → Option String

/-- Modelled from the spec: the source-control state `setuptools_scm`
queries; `resolvedVersion` is the version string derivable from
tags/commit history, `none` when no such metadata is discoverable. -/
structure ScmState where
  resolvedVersion : Option String
deriving DecidableEq

/-- Modelled from the spec: source-control version resolution — a pure
query of the source-control state. -/
def resolveScmVersion (scm : ScmState) : Option String :=
  scm.resolvedVersion

/-- A directory tree: a node holds the plain file names it contains
directly and its named subdirectories. -/
inductive DirTree where
  | node : List String → List (String × DirTree) → DirTree

/-- The plain files directly contained in a directory. -/
def DirTree.files : DirTree → List String
  | .node fls _ => fls

/-- The named subdirectories of a directory. -/
def DirTree.subdirs : DirTree → List (String × DirTree)
  | .node _ ds => ds

/-- A directory is a (regular) package iff it directly contains an
`__init__.py` file. -/
def DirTree.isPackage (t : DirTree) : Bool :=
  t.files.contains "__init__.py"

mutual

/-- Modelled from the spec: `setuptools.find_packages()` restricted to a
subtree — walks the tree below the given dotted path and collects the
dotted names of the directories that contain an `__init__.py`. -/
def find_packagesFrom : String → DirTree → List String
  | pfx, .node _ ds => find_packagesSubs pfx ds

/-- Discovery over a list of named subdirectories, in order. -/
def find_packagesSubs : String → List (String × DirTree) → List String
  | _, [] => []
  | pfx, (nm, sub) :: rest =>
    (let dotted := if pfx = "" then nm else pfx ++ "." ++ nm
     (if sub.isPackage then [dotted] else []) ++ find_packagesFrom dotted sub)
      ++ find_packagesSubs pfx rest

end

/-- Modelled from the spec: `find_packages()` as called on line 15 —
sub-package discovery over the project root, a pure function of the
directory tree. -/
def find_packages (tree : DirTree) : List String :=
  find_packagesFrom "" tree

/-- The Package Metadata Record: exactly the keyword arguments passed to
`setup(...)` on lines 7-17 of `setup.py`. -/
structure SetupMetadata where
  name : String
  summary : String
  description : String
  maintainer : String
  maintainer_email : String
  use_scm_version : Bool
  setup_requires : List String
  packages : List String
  include_package_data : Bool
deriving DecidableEq

/-- The ways a build invocation can fail. -/
inductive BuildError where
  /-- Python `IOError` / `FileNotFoundError` from `open(path)`. -/
  | fileNotFound : String → BuildError
  /-- Modelled from the spec: `setuptools_scm` cannot derive a version
  from the source-control metadata. -/
  | versionResolution : BuildError
  /-- Modelled from the spec: the packaging tool rejects an empty
  sub-package list. -/
  | discoveryError : BuildError
deriving DecidableEq

/-- Embeds line 5 of `setup.py`:
`long_description = open('README.txt').read()` — returns the file's
contents verbatim, or fails with a file-not-found error. -/
def readLongDescription (fs : FileSystem) : Except BuildError String :=
  match fs.readFile "README.txt" with
  | some contents => .ok contents
  | none => .error (.fileNotFound "README.txt")

/-- Embeds lines 7-17 of `setup.py`: the metadata record handed to
`setup(...)`, field for field in source order. -/
def setupMetadata (long_description : String) (tree : DirTree) : SetupMetadata :=
  { name := "XStatic-Angular"
    summary := "Angular 1.4.10 (XStatic packaging standard)"
    description := long_description
    maintainer := "Rob Cresswell"
    maintainer_email := "robert.cresswell@outlook.com"
    use_scm_version := true
    setup_requires := ["setuptools_scm", "wheel"]
    packages := find_packages tree
    include_package_data := true }

/-- Modelled from the spec: the external packaging tool's entry point.
With `use_scm_version` set it fails with a version-resolution error when
no version is derivable from source control; it fails with a discovery
error when the sub-package list is empty; otherwise the build succeeds. -/
def setupTool (scm : ScmState) (m : SetupMetadata) : Except BuildError Unit :=
  if m.use_scm_version && (resolveScmVersion scm).isNone then
    .error .versionResolution
  else if m.packages.isEmpty then
    .error .discoveryError
  else
    .ok ()

/-- Observable events of one script execution, in order. -/
inductive Event where
  /-- The read of the description file completed with these contents. -/
  | readDescription : String → Event
  /-- The packaging tool's entry point was invoked with this record. -/
  | callSetup : SetupMetadata → Event
deriving DecidableEq

/-- The whole script, line 5 followed by lines 7-17: produces the ordered
event trace of the execution and the build outcome (the metadata record
consumed by the tool on success, the first fatal error otherwise). -/
def runSetupScript (fs : FileSystem) (scm : ScmState) (tree : DirTree) :
    List Event × Except BuildError SetupMetadata :=
  match readLongDescription fs with
  | .error e => ([], .error e)
  | .ok long_description =>
    let m := setupMetadata long_description tree
    ([.readDescription long_description, .callSetup m],
      match setupTool scm m with
      | .error e => .error e
      | .ok _ => .ok m)

/-- A filesystem on which `README.txt` is present and readable. -/
def fsGood : FileSystem :=
  ⟨fun p => if p = "README.txt" then some "Angular 1.4.10 packaged." else none⟩

/-- A filesystem on which `README.txt` is absent. -/
def fsBad : FileSystem := ⟨fun _ => none⟩

/-- A source-control state with a resolvable version. -/
def scmGood : ScmState := ⟨some "1.4.10.0"⟩

/-- A source-control state with no discoverable version metadata. -/
def scmBad : ScmState := ⟨none⟩

/-- A project tree with one sub-package, `xstatic`. -/
def treeGood : DirTree :=
  .node ["setup.py", "README.txt"] [("xstatic", .node ["__init__.py"] [])]

/-- A project tree in which discovery finds no sub-packages. -/
def treeEmpty : DirTree := .node ["setup.py", "README.txt"] []

/-! ## Helper lemmas -/

/-- Any metadata record the script hands to the packaging tool was built by
`setupMetadata` from the actual contents of `README.txt`. -/
theorem callSetup_metadata_eq (fs : FileSystem) (scm : ScmState)
    (tree : DirTree) (m : SetupMetadata)
    (hm : Event.callSetup m ∈ (runSetupScript fs scm tree).1) :
    ∃ c, fs.readFile "README.txt" = some c ∧ m = setupMetadata c tree := by
  cases h : fs.readFile "README.txt" with
  | none =>
    simp [runSetupScript, readLongDescription, h] at hm
  | some c =>
    simp [runSetupScript, readLongDescription, h] at hm
    exact ⟨c, rfl, hm⟩

/-- On a readable filesystem the trace is exactly the read followed by the
delegation. -/
theorem trace_of_readable (fs : FileSystem) (scm : ScmState) (tree : DirTree)
    (c : String) (h : fs.readFile "README.txt" = some c) :
    (runSetupScript fs scm tree).1 =
      [.readDescription c, .callSetup (setupMetadata c tree)] := by
  simp [runSetupScript, readLongDescription, h]

/-! ## Claim theorems -/

/-- C1: for every filesystem state in which `README.txt` exists and is
readable, the metadata record passed to the packaging tool has its
`description` field equal, character for character, to the full contents
of that file. -/
theorem C1_description_verbatim (fs : FileSystem) (scm : ScmState)
    (tree : DirTree) (c : String) (h : fs.readFile "README.txt" = some c)
    (m : SetupMetadata)
    (hm : Event.callSetup m ∈ (runSetupScript fs scm tree).1) :
    m.description = c := by
  obtain ⟨c', hc', hmeq⟩ := callSetup_metadata_eq fs scm tree m hm
  rw [h] at hc'
  cases hc'
  rw [hmeq]
  rfl

/-- Witness for C1 at a concrete filesystem, source-control state and
tree. -/
theorem C1_description_verbatim_witness :
    (setupMetadata "Angular 1.4.10 packaged." treeGood).description =
      "Angular 1.4.10 packaged." :=
  C1_description_verbatim fsGood scmGood treeGood "Angular 1.4.10 packaged."
    rfl (setupMetadata "Angular 1.4.10 packaged." treeGood)
    (by simp [runSetupScript, readLongDescription, fsGood])

/-- C2: for every filesystem state in which `README.txt` is absent or
unreadable, the build fails with a file-not-found error; quantifying over
every source-control state and directory tree shows the failure is
deterministic in the input state. -/
theorem C2_missing_readme_fails (fs : FileSystem) (scm : ScmState)
    (tree : DirTree) (h : fs.readFile "README.txt" = none) :
    (runSetupScript fs scm tree).2 =
      .error (.fileNotFound "README.txt") := by
  simp [runSetupScript, readLongDescription, h]

/-- Witness for C2 on the filesystem with no files at all. -/
theorem C2_missing_readme_fails_witness :
    (runSetupScript fsBad scmGood treeGood).2 =
      .error (.fileNotFound "README.txt") :=
  C2_missing_readme_fails fsBad scmGood treeGood rfl

/-- C3: for every invocation that reaches the packaging tool (the
description file is readable) in which no version can be resolved from
source-control metadata, the build fails with a version-resolution
error; the statement quantifies over every such state, so the failure is
deterministic. -/
theorem C3_no_scm_version_fails (fs : FileSystem) (scm : ScmState)
    (tree : DirTree) (c : String) (hr : fs.readFile "README.txt" = some c)
    (hv : scm.resolvedVersion = none) :
    (runSetupScript fs scm tree).2 = .error .versionResolution := by
  simp [runSetupScript, readLongDescription, hr, setupTool, setupMetadata,
    resolveScmVersion, hv]

/-- Witness for C3 on a readable filesystem with empty source-control
history. -/
theorem C3_no_scm_version_fails_witness :
    (runSetupScript fsGood scmBad treeGood).2 = .error .versionResolution :=
  C3_no_scm_version_fails fsGood scmBad treeGood "Angular 1.4.10 packaged."
    rfl rfl

/-- C4: every metadata record handed to the packaging tool has name equal
to the literal string XStatic-Angular, for every filesystem,
source-control state and tree — hence identical across any two builds. -/
theorem C4_name_constant (fs : FileSystem) (scm : ScmState) (tree : DirTree)
    (m : SetupMetadata)
    (hm : Event.callSetup m ∈ (runSetupScript fs scm tree).1) :
    m.name = "XStatic-Angular" := by
  obtain ⟨c, _, hmeq⟩ := callSetup_metadata_eq fs scm tree m hm
  rw [hmeq]
  rfl

/-- Witness for C4 at a concrete execution. -/
theorem C4_name_constant_witness :
    (setupMetadata "Angular 1.4.10 packaged." treeGood).name =
      "XStatic-Angular" :=
  C4_name_constant fsGood scmGood treeGood
    (setupMetadata "Angular 1.4.10 packaged." treeGood)
    (by simp [runSetupScript, readLongDescription, fsGood])

/-- C5: every metadata record handed to the packaging tool is fully
populated: name, summary, description equal to the file contents,
maintainer name and email, the dynamic version-resolution flag, the
ordered build-step dependency list, the discovered sub-package list, and
the include-non-code-data-files flag set to true. -/
theorem C5_metadata_fully_populated (fs : FileSystem) (scm : ScmState)
    (tree : DirTree) (m : SetupMetadata)
    (hm : Event.callSetup m ∈ (runSetupScript fs scm tree).1) :
    m.name = "XStatic-Angular" ∧
    m.summary = "Angular 1.4.10 (XStatic packaging standard)" ∧
    (∃ c, fs.readFile "README.txt" = some c ∧ m.description = c) ∧
    m.maintainer = "Rob Cresswell" ∧
    m.maintainer_email = "robert.cresswell@outlook.com" ∧
    m.use_scm_version = true ∧
    m.setup_requires = ["setuptools_scm", "wheel"] ∧
    m.packages = find_packages tree ∧
    m.include_package_data = true := by
  obtain ⟨c, hc, hmeq⟩ := callSetup_metadata_eq fs scm tree m hm
  subst hmeq
  exact ⟨rfl, rfl, ⟨c, hc, rfl⟩, rfl, rfl, rfl, rfl, rfl, rfl⟩

/-- Witness for C5 at a concrete execution. -/
theorem C5_metadata_fully_populated_witness :
    (setupMetadata "Angular 1.4.10 packaged." treeGood).name =
        "XStatic-Angular" ∧
    (setupMetadata "Angular 1.4.10 packaged." treeGood).summary =
        "Angular 1.4.10 (XStatic packaging standard)" ∧
    (∃ c, fsGood.readFile "README.txt" = some c ∧
      (setupMetadata "Angular 1.4.10 packaged." treeGood).description = c) ∧
    (setupMetadata "Angular 1.4.10 packaged." treeGood).maintainer =
        "Rob Cresswell" ∧
    (setupMetadata "Angular 1.4.10 packaged." treeGood).maintainer_email =
        "robert.cresswell@outlook.com" ∧
    (setupMetadata "Angular 1.4.10 packaged." treeGood).use_scm_version =
        true ∧
    (setupMetadata "Angular 1.4.10 packaged." treeGood).setup_requires =
        ["setuptools_scm", "wheel"] ∧
    (setupMetadata "Angular 1.4.10 packaged." treeGood).packages =
        find_packages treeGood ∧
    (setupMetadata "Angular 1.4.10 packaged." treeGood).include_package_data =
        true :=
  C5_metadata_fully_populated fsGood scmGood treeGood
    (setupMetadata "Angular 1.4.10 packaged." treeGood)
    (by simp [runSetupScript, readLongDescription, fsGood])

/-- C6: sub-package discovery is deterministic — two runs of
`find_packages` against the same unchanged directory tree return the same
list of sub-package paths. -/
theorem C6_discovery_deterministic (t1 t2 : DirTree) (h : t1 = t2) :
    find_packages t1 = find_packages t2 := by
  rw [h]

/-- Witness for C6 on a concrete tree. -/
theorem C6_discovery_deterministic_witness :
    find_packages treeGood = find_packages treeGood :=
  C6_discovery_deterministic treeGood treeGood rfl

/-- C7: in every execution, whenever the packaging tool's entry point is
invoked at position `i` of the trace, the description-file read has
completed at an earlier position `j < i`. -/
theorem C7_read_before_delegate (fs : FileSystem) (scm : ScmState)
    (tree : DirTree) (i : Nat) (m : SetupMetadata)
    (hi : (runSetupScript fs scm tree).1[i]? = some (.callSetup m)) :
    ∃ j c, j < i ∧
      (runSetupScript fs scm tree).1[j]? = some (.readDescription c) := by
  cases h : fs.readFile "README.txt" with
  | none => simp [runSetupScript, readLongDescription, h] at hi
  | some c =>
    rw [trace_of_readable fs scm tree c h] at hi
    match i with
    | 0 => simp at hi
    | 1 =>
      refine ⟨0, c, Nat.zero_lt_one, ?_⟩
      rw [trace_of_readable fs scm tree c h]
      rfl
    | n + 2 => simp at hi

/-- Witness for C7: on a concrete execution the delegation sits at trace
position 1 and the read at an earlier position. -/
theorem C7_read_before_delegate_witness :
    ∃ j c, j < 1 ∧
      (runSetupScript fsGood scmGood treeGood).1[j]? =
        some (.readDescription c) :=
  C7_read_before_delegate fsGood scmGood treeGood 1
    (setupMetadata "Angular 1.4.10 packaged." treeGood)
    (by simp [runSetupScript, readLongDescription, fsGood])

/-- C8: for every invocation that reaches the packaging tool with a
resolvable version, if sub-package discovery finds no sub-packages the
build fails with a discovery error, raised inside the tool. -/
theorem C8_no_packages_discovery_error (fs : FileSystem) (scm : ScmState)
    (tree : DirTree) (c v : String)
    (hr : fs.readFile "README.txt" = some c)
    (hv : scm.resolvedVersion = some v)
    (hp : find_packages tree = []) :
    (runSetupScript fs scm tree).2 = .error .discoveryError := by
  simp [runSetupScript, readLongDescription, hr, setupTool, setupMetadata,
    resolveScmVersion, hv, hp]

/-- Witness for C8 on a tree with no sub-packages. -/
theorem C8_no_packages_discovery_error_witness :
    (runSetupScript fsGood scmGood treeEmpty).2 =
      .error .discoveryError :=
  C8_no_packages_discovery_error fsGood scmGood treeEmpty
    "Angular 1.4.10 packaged." "1.4.10.0" rfl rfl
    (by simp [find_packages, find_packagesFrom, find_packagesSubs, treeEmpty])

/-- C9: failure atomicity — whenever the description-file read fails, the
packaging tool's entry point is never invoked (no metadata record ever
appears in the trace) and the outcome is exactly the failed read. -/
theorem C9_read_failure_atomic (fs : FileSystem) (scm : ScmState)
    (tree : DirTree) (h : fs.readFile "README.txt" = none) :
    (∀ m : SetupMetadata,
        Event.callSetup m ∉ (runSetupScript fs scm tree).1) ∧
    (runSetupScript fs scm tree).2 =
      .error (.fileNotFound "README.txt") := by
  constructor
  · intro m hm
    simp [runSetupScript, readLongDescription, h] at hm
  · simp [runSetupScript, readLongDescription, h]

/-- Witness for C9 on the filesystem with no files at all. -/
theorem C9_read_failure_atomic_witness :
    (∀ m : SetupMetadata,
        Event.callSetup m ∉ (runSetupScript fsBad scmGood treeGood).1) ∧
    (runSetupScript fsBad scmGood treeGood).2 =
      .error (.fileNotFound "README.txt") :=
  C9_read_failure_atomic fsBad scmGood treeGood rfl

/-- C10: the summary, maintainer name and maintainer email of every
metadata record handed to the packaging tool are the three fixed literal
strings, for every filesystem, source-control state and tree. -/
theorem C10_fixed_contact_fields (fs : FileSystem) (scm : ScmState)
    (tree : DirTree) (m : SetupMetadata)
    (hm : Event.callSetup m ∈ (runSetupScript fs scm tree).1) :
    m.summary = "Angular 1.4.10 (XStatic packaging standard)" ∧
    m.maintainer = "Rob Cresswell" ∧
    m.maintainer_email = "robert.cresswell@outlook.com" := by
  obtain ⟨c, _, hmeq⟩ := callSetup_metadata_eq fs scm tree m hm
  subst hmeq
  exact ⟨rfl, rfl, rfl⟩

/-- Witness for C10 at a concrete execution. -/
theorem C10_fixed_contact_fields_witness :
    (setupMetadata "Angular 1.4.10 packaged." treeGood).summary =
        "Angular 1.4.10 (XStatic packaging standard)" ∧
    (setupMetadata "Angular 1.4.10 packaged." treeGood).maintainer =
        "Rob Cresswell" ∧
    (setupMetadata "Angular 1.4.10 packaged." treeGood).maintainer_email =
        "robert.cresswell@outlook.com" :=
  C10_fixed_contact_fields fsGood scmGood treeGood
    (setupMetadata "Angular 1.4.10 packaged." treeGood)
    (by simp [runSetupScript, readLongDescription, fsGood])
